import Mathlib

/-!
Shallow embedding of `src/example/gatt_browser.c` (BTstack GATT browser
example): the two packet handlers `handle_hci_event` and
`handle_gatt_client_event`, the global session state they mutate, and the
command-line parsing in `btstack_main`.  Stack-facing calls
(`gap_connect`, `gatt_client_discover_primary_services`, ...) are modelled
as emitted actions; incoming packets are modelled as typed events.
`printf`-style output is not modelled.
-/

/-- Model of btstack `gatt_client_service_t` (start/end group handle,
16-bit UUID, 128-bit UUID as a byte list). -/
structure GattService where
  start_group_handle : Nat
  end_group_handle : Nat
  uuid16 : Nat
  uuid128 : List Nat
deriving DecidableEq, Repr

/-- Model of btstack `gatt_client_characteristic_t`. -/
structure GattCharacteristic where
  start_handle : Nat
  value_handle : Nat
  end_handle : Nat
  properties : Nat
  uuid16 : Nat
  uuid128 : List Nat
deriving DecidableEq, Repr

/-- The zero-filled service value: static storage in C is zero-initialised,
so every slot of `services[40]` starts out as this value. -/
def zero_service : GattService :=
  { start_group_handle := 0, end_group_handle := 0, uuid16 := 0,
    uuid128 := List.replicate 16 0 }

/-- Capacity of the global array `gatt_client_service_t services[40]`. -/
def SERVICES_CAPACITY : Nat := 40

/-- Incoming packets, as dispatched by packet type / event code.
HCI events go to `handle_hci_event`, GATT client events to
`handle_gatt_client_event`. -/
inductive Event where
  /-- BTSTACK_EVENT_STATE; `working` is whether the state is HCI_STATE_WORKING. -/
  | btstack_event_state (working : Bool)
  /-- GAP_EVENT_ADVERTISING_REPORT carrying the peer address and address type. -/
  | gap_event_advertising_report (addr : List Nat) (addr_type : Nat)
  /-- HCI_EVENT_LE_META with subevent HCI_SUBEVENT_LE_CONNECTION_COMPLETE. -/
  | hci_le_connection_complete (handle : Nat)
  /-- HCI_EVENT_LE_META with any other subevent (filtered out at line 194). -/
  | hci_le_meta_other
  /-- HCI_EVENT_DISCONNECTION_COMPLETE. -/
  | hci_disconnection_complete
  /-- GATT_EVENT_SERVICE_QUERY_RESULT carrying one discovered service. -/
  | gatt_service_query_result (svc : GattService)
  /-- GATT_EVENT_CHARACTERISTIC_QUERY_RESULT carrying one characteristic. -/
  | gatt_characteristic_query_result (ch : GattCharacteristic)
  /-- GATT_EVENT_QUERY_COMPLETE. -/
  | gatt_query_complete
  /-- Any other HCI event (default case of the switch). -/
  | other_event
deriving DecidableEq, Repr

/-- Stack-facing requests issued by the program (fire-and-forget calls into
the BLE stack), plus process termination via `exit`. -/
inductive Act where
  | gap_set_scan_parameters (scan_type interval window : Nat)
  | gap_start_scan
  | gap_stop_scan
  | gap_connect (addr : List Nat) (addr_type : Nat)
  | gatt_client_discover_primary_services (handle : Nat)
  | gatt_client_discover_characteristics_for_service (handle : Nat) (svc : GattService)
  | gap_disconnect (handle : Nat)
  | exit_process (code : Nat)
deriving DecidableEq, Repr

/-- C undefined behaviour surfaced by the embedding. -/
inductive CErr where
  /-- A write `services[i] = ...` with `i ≥ 40`, past the end of the array. -/
  | array_write_out_of_bounds
deriving DecidableEq, Repr

/-- The program's mutable globals (file-scope `static` variables), plus
`exited` recording that `exit(code)` was called (after which no further
callback runs). -/
structure ProgState where
  cmdline_addr : List Nat
  cmdline_addr_found : Bool
  connection_handler : Nat
  /-- the 40-slot array `services`, always of length `SERVICES_CAPACITY` -/
  services : List GattService
  service_count : Nat
  service_index : Nat
  search_services : Bool
  exited : Option Nat
deriving DecidableEq, Repr

/-- Global state at program start: statics are zero-initialised except
`search_services = 1`. -/
def initState : ProgState :=
  { cmdline_addr := List.replicate 6 0
    cmdline_addr_found := false
    connection_handler := 0
    services := List.replicate SERVICES_CAPACITY zero_service
    service_count := 0
    service_index := 0
    search_services := true
    exited := none }

/-- Embedding of `handle_hci_event` (gatt_browser.c lines 166-206): the
switch over the HCI event code.  Returns the updated globals and the list
of stack calls made, in order. -/
def handle_hci_event (s : ProgState) (e : Event) : ProgState × List Act :=
  match e with
  | .btstack_event_state working =>
      if !working then (s, [])
      else if s.cmdline_addr_found then
        (s, [.gap_connect s.cmdline_addr 0])
      else
        (s, [.gap_set_scan_parameters 0 48 48, .gap_start_scan])
  | .gap_event_advertising_report addr addr_type =>
      -- stop scanning, and connect to the device
      (s, [.gap_stop_scan, .gap_connect addr addr_type])
  | .hci_le_connection_complete h =>
      ({ s with connection_handler := h },
       [.gatt_client_discover_primary_services h])
  | .hci_le_meta_other => (s, [])
  | .hci_disconnection_complete =>
      ({ s with exited := some 0 }, [.exit_process 0])
  | _ => (s, [])

/-- Embedding of `handle_gatt_client_event` (gatt_browser.c lines 223-259).
The write `services[service_count++] = service` targets the fixed array
`services[40]`; a write at index ≥ 40 is past the end of the array
(undefined behaviour in C), surfaced here as an error. -/
def handle_gatt_client_event (s : ProgState) (e : Event) :
    Except CErr (ProgState × List Act) :=
  match e with
  | .gatt_service_query_result svc =>
      if s.service_count < SERVICES_CAPACITY then
        .ok ({ s with services := s.services.set s.service_count svc,
                      service_count := s.service_count + 1 }, [])
      else
        .error .array_write_out_of_bounds
  | .gatt_characteristic_query_result _ =>
      -- the characteristic is only printed, never stored
      .ok (s, [])
  | .gatt_query_complete =>
      if s.search_services then
        -- query complete of the primary-service search: service_index = 0,
        -- search_services = 0, and discover characteristics of
        -- services[service_index] unconditionally
        .ok ({ s with service_index := 0, search_services := false },
             [.gatt_client_discover_characteristics_for_service
                s.connection_handler (s.services.getD 0 zero_service)])
      else if s.service_index < s.service_count then
        -- service = services[service_index++]; discover its characteristics
        .ok ({ s with service_index := s.service_index + 1 },
             [.gatt_client_discover_characteristics_for_service
                s.connection_handler (s.services.getD s.service_index zero_service)])
      else
        -- all services done: service_index = 0; gap_disconnect
        .ok ({ s with service_index := 0 },
             [.gap_disconnect s.connection_handler])
  | _ => .ok (s, [])

/-- One delivered event: dispatch to the handler registered for its packet
type.  After `exit` has run, the process is gone and no handler executes. -/
def step (s : ProgState) (e : Event) : Except CErr (ProgState × List Act) :=
  if s.exited.isSome then .ok (s, []) else
  match e with
  | .gatt_service_query_result _ => handle_gatt_client_event s e
  | .gatt_characteristic_query_result _ => handle_gatt_client_event s e
  | .gatt_query_complete => handle_gatt_client_event s e
  | _ => .ok (handle_hci_event s e)

/-- Run the program over a sequence of delivered events, collecting all
stack calls in order. -/
def run (s : ProgState) (evs : List Event) : Except CErr (ProgState × List Act) :=
  match evs with
  | [] => .ok (s, [])
  | e :: rest =>
      match step s e with
      | .error err => .error err
      | .ok (s1, as1) =>
          match run s1 rest with
          | .error err => .error err
          | .ok (s2, as2) => .ok (s2, as1 ++ as2)

/-- The actions of a run, `none` if the run hits undefined behaviour. -/
def run_actions (s : ProgState) (evs : List Event) : Option (List Act) :=
  match run s evs with
  | .ok (_, as) => some as
  | .error _ => none

/-- The services for which a discover-characteristics request was issued,
in order of issue. -/
def char_targets (as : List Act) : List GattService :=
  as.filterMap fun a =>
    match a with
    | .gatt_client_discover_characteristics_for_service _ svc => some svc
    | _ => none

/-- Number of `gap_connect` requests in an action list. -/
def count_connects (as : List Act) : Nat :=
  as.countP fun a => match a with | .gap_connect _ _ => true | _ => false

/-- Number of `gap_disconnect` requests in an action list. -/
def count_disconnects (as : List Act) : Nat :=
  as.countP fun a => match a with | .gap_disconnect _ => true | _ => false

/-- Number of `exit` calls in an action list. -/
def count_exits (as : List Act) : Nat :=
  as.countP fun a => match a with | .exit_process _ => true | _ => false

/-- The canonical discovery session: connection complete, the peer's
service-query results, then the query-complete events (one ending the
service search, then one per issued characteristic discovery). -/
def discovery_trace (h : Nat) (L : List GattService) : List Event :=
  Event.hci_le_connection_complete h ::
    (L.map Event.gatt_service_query_result ++
     List.replicate (L.length + 2) Event.gatt_query_complete)

/-- A concrete service used in witnesses and counterexamples. -/
def svc_a : GattService :=
  { start_group_handle := 1, end_group_handle := 8, uuid16 := 6154,
    uuid128 := List.replicate 16 0 }

/-- A second concrete service. -/
def svc_b : GattService :=
  { start_group_handle := 9, end_group_handle := 16, uuid16 := 6158,
    uuid128 := List.replicate 16 0 }

/-- Sequential array writes `arr[i] = L[0]; arr[i+1] = L[1]; ...`, the
effect of the service-query-result phase on the `services` array. -/
def store_list (arr : List GattService) (i : Nat) (L : List GattService) :
    List GattService :=
  match L with
  | [] => arr
  | a :: t => store_list (arr.set i a) (i + 1) t

/-- Value of one hexadecimal digit character. -/
def hex_digit_val (c : Char) : Option Nat :=
  if ('0' ≤ c ∧ c ≤ '9') then some (c.toNat - 48)
  else if ('a' ≤ c ∧ c ≤ 'f') then some (c.toNat - 87)
  else if ('A' ≤ c ∧ c ≤ 'F') then some (c.toNat - 55)
  else none

/-- Split a character list into the groups between colons. -/
def split_colon : List Char → List (List Char)
  | [] => [[]]
  | c :: rest =>
      if c = ':' then [] :: split_colon rest
      else
        match split_colon rest with
        | [] => [[c]]
        | g :: gs => (c :: g) :: gs

/-- Value of a two-hex-digit byte such as `a1`. -/
def parse_hex_byte (cs : List Char) : Option Nat :=
  match cs with
  | [hi, lo] =>
      match hex_digit_val hi, hex_digit_val lo with
      | some h, some l => some (16 * h + l)
      | _, _ => none
  | _ => none

/-- Modelled from the spec: `sscanf_bd_addr` lives in btstack_util.c, which
is not under `src/`; per the spec the address argument has the form
`aa:bb:cc:dd:ee:ff`, six two-hex-digit bytes separated by colons.  Returns
the six bytes on success, `none` when the string does not parse. -/
def sscanf_bd_addr (s : String) : Option (List Nat) :=
  match (split_colon s.data).mapM parse_hex_byte with
  | some bytes => if bytes.length = 6 then some bytes else none
  | none => none

/-- Outcome of `btstack_main` (gatt_browser.c lines 268-290). -/
inductive MainOutcome where
  /-- `usage(argv[0])` printed, then `return 0` before any setup or power-on. -/
  | usage_and_exit0
  /-- `gatt_client_setup()` and `hci_power_control(HCI_POWER_ON)` ran, then
  `return 0`; carries the final `cmdline_addr_found` / `cmdline_addr`. -/
  | powered_on (cmdline_addr_found : Bool) (cmdline_addr : List Nat)
  /-- `-a`/`--address` was the final argument: after `arg++` the read
  `argv[arg]` is `argv[argc]`, the NULL end marker of the argument vector,
  which is handed to `sscanf_bd_addr`; behaviour past this point is not
  defined by the spec. -/
  | read_null_argv
deriving DecidableEq, Repr

/-- The `while (arg < argc)` loop of `btstack_main`, walking the argument
vector after `argv[0]`.  On `-a`/`--address` the next argument is consumed
and parsed (`cmdline_addr_found = sscanf_bd_addr(argv[arg], cmdline_addr)`);
any other argument prints usage and returns 0. -/
def btstack_main_loop (args : List String) (found : Bool) (addr : List Nat) :
    MainOutcome :=
  match args with
  | [] => .powered_on found addr
  | a :: rest =>
      if a = "-a" ∨ a = "--address" then
        match rest with
        | [] => .read_null_argv
        | v :: rest2 =>
            match sscanf_bd_addr v with
            | some bytes => btstack_main_loop rest2 true bytes
            | none => btstack_main_loop rest2 false addr
      else
        .usage_and_exit0

/-- Embedding of `btstack_main` (gatt_browser.c lines 268-290): `arg`
starts at 1, `cmdline_addr_found` at 0. -/
def btstack_main (argv : List String) : MainOutcome :=
  btstack_main_loop argv.tail false (List.replicate 6 0)

/-! ### Basic facts about `run` -/

theorem run_append (s : ProgState) (l1 l2 : List Event) :
    run s (l1 ++ l2) =
      match run s l1 with
      | .error err => .error err
      | .ok (s1, as1) =>
          match run s1 l2 with
          | .error err => .error err
          | .ok (s2, as2) => .ok (s2, as1 ++ as2) := by
  induction l1 generalizing s with
  | nil =>
      simp only [List.nil_append, run]
      cases hr : run s l2 with
      | error err => rfl
      | ok p => cases p; rfl
  | cons e t ih =>
      simp only [List.cons_append, run]
      cases hs : step s e with
      | error err => rfl
      | ok p =>
          obtain ⟨s1, as1⟩ := p
          dsimp only
          simp only [List.append_eq]
          rw [ih]
          cases ht : run s1 t with
          | error err => rfl
          | ok q =>
              obtain ⟨s2, as2⟩ := q
              dsimp only
              cases hl : run s2 l2 with
              | error err => rfl
              | ok r => cases r; simp

theorem step_of_exited (s : ProgState) (e : Event) (hex : s.exited.isSome) :
    step s e = .ok (s, []) := by
  simp [step, hex]

theorem run_of_exited (s : ProgState) (evs : List Event) (hex : s.exited.isSome) :
    run s evs = .ok (s, []) := by
  induction evs with
  | nil => rfl
  | cons e t ih => rw [run, step_of_exited s e hex]; dsimp only; rw [ih]; rfl

/-! ### C7: connection complete starts primary-service discovery -/

/-- C7: for every connection-complete event handled while the process is
alive, exactly one discover-primary-services request is issued, and it
references the connection handle carried by that event. -/
theorem connection_complete_starts_primary_discovery (s : ProgState) (h : Nat)
    (hex : s.exited = none) :
    step s (Event.hci_le_connection_complete h) =
      .ok ({ s with connection_handler := h },
           [Act.gatt_client_discover_primary_services h]) := by
  simp [step, hex, handle_hci_event]

/-- Witness for C7 at the initial state with connection handle 7. -/
theorem connection_complete_starts_primary_discovery_witness :
    initState.exited = none ∧
    step initState (Event.hci_le_connection_complete 7) =
      .ok ({ initState with connection_handler := 7 },
           [Act.gatt_client_discover_primary_services 7]) :=
  ⟨rfl, connection_complete_starts_primary_discovery initState 7 rfl⟩

/-! ### C2: advertising reports and connect requests -/

/-- C2 counterexample: two advertising reports delivered before the connect
completes both trigger a connect request.  The handler has no guard, so the
second report is not ignored: two `gap_connect` calls are issued, not
exactly one. -/
theorem second_report_triggers_second_connect :
    run_actions initState
        [Event.gap_event_advertising_report [1, 2, 3, 4, 5, 6] 0,
         Event.gap_event_advertising_report [7, 8, 9, 10, 11, 12] 1] =
      some [Act.gap_stop_scan, Act.gap_connect [1, 2, 3, 4, 5, 6] 0,
            Act.gap_stop_scan, Act.gap_connect [7, 8, 9, 10, 11, 12] 1] ∧
    count_connects
        [Act.gap_stop_scan, Act.gap_connect [1, 2, 3, 4, 5, 6] 0,
         Act.gap_stop_scan, Act.gap_connect [7, 8, 9, 10, 11, 12] 1] = 2 := by
  decide

/-- C2 (amended): every advertising report delivered before the connection
completes triggers its own stop-scan and connect request, using that
report's address and address type.  In particular the first connect uses
the first report's address, and exactly one connect is issued precisely
when exactly one report is delivered. -/
theorem connect_per_advertising_report (rs : List (List Nat × Nat)) :
    run initState (rs.map fun r => Event.gap_event_advertising_report r.1 r.2) =
      .ok (initState,
        (rs.map fun r => [Act.gap_stop_scan, Act.gap_connect r.1 r.2]).flatten) := by
  induction rs with
  | nil => rfl
  | cons r t ih =>
      rw [List.map_cons, run,
        show step initState (Event.gap_event_advertising_report r.1 r.2) =
          .ok (initState, [Act.gap_stop_scan, Act.gap_connect r.1 r.2]) from rfl]
      dsimp only
      rw [ih]
      simp

/-! ### C3: empty service sequence -/

/-- C3 counterexample: with an empty service sequence (S = 0), the
query-complete event ending service discovery still issues a
discover-characteristics request — for the zero-initialised slot 0 — and
no disconnect is issued upon handling that event. -/
theorem empty_services_still_queries_slot_zero :
    run_actions initState
        [Event.hci_le_connection_complete 7, Event.gatt_query_complete] =
      some [Act.gatt_client_discover_primary_services 7,
            Act.gatt_client_discover_characteristics_for_service 7 zero_service] ∧
    char_targets
        [Act.gatt_client_discover_primary_services 7,
         Act.gatt_client_discover_characteristics_for_service 7 zero_service] ≠ [] ∧
    count_disconnects
        [Act.gatt_client_discover_primary_services 7,
         Act.gatt_client_discover_characteristics_for_service 7 zero_service] = 0 := by
  decide

/-- C3 (amended): with S = 0 the services query-complete issues one
discover-characteristics request for the zero-initialised element 0; the
disconnect request is issued upon the next query-complete event, not
immediately. -/
theorem empty_services_disconnect_after_spurious_query (h : Nat) :
    run_actions initState
        [Event.hci_le_connection_complete h, Event.gatt_query_complete,
         Event.gatt_query_complete] =
      some [Act.gatt_client_discover_primary_services h,
            Act.gatt_client_discover_characteristics_for_service h zero_service,
            Act.gap_disconnect h] := by
  rfl

/-! ### C4: service array overflow -/

/-- C4: `services[service_count++] = service` has no capacity check; on the
41st service-query-result the write targets `services[40]`, one element
past the end of the 40-element array.  No DiscoveryOverflow condition is
surfaced by the program; the embedding flags the out-of-bounds write. -/
theorem service_overflow_writes_out_of_bounds :
    run initState
        (Event.hci_le_connection_complete 7 ::
         List.replicate 41 (Event.gatt_service_query_result svc_a)) =
      .error .array_write_out_of_bounds := by
  rfl

/-! ### The service-discovery phase of a session -/

theorem store_list_eq (L : List GattService) (arr : List GattService) (i : Nat)
    (hle : i + L.length ≤ arr.length) :
    store_list arr i L = arr.take i ++ L ++ arr.drop (i + L.length) := by
  induction L generalizing arr i with
  | nil => simp [store_list]
  | cons a t ih =>
      have hi : i < arr.length := by simp at hle; omega
      rw [store_list, ih (arr.set i a) (i + 1)
        (by simp only [List.length_set]; simp at hle; omega)]
      rw [List.set_eq_take_cons_drop a hi]
      rw [List.take_append_eq_append_take, List.drop_append_eq_append_drop]
      simp only [List.length_take]
      have h1 : min i arr.length = i := by omega
      have h2 : i + 1 - i = 1 := by omega
      have h3 : i + 1 + t.length - i = t.length + 1 := by omega
      rw [h1, h2, h3]
      rw [List.take_of_length_le (l := arr.take i)
        (by simp only [List.length_take]; omega)]
      rw [List.drop_eq_nil_of_le
        (show (arr.take i).length ≤ i + 1 + t.length by
          simp only [List.length_take]; omega)]
      rw [show (1 : Nat) = 0 + 1 from rfl, List.take_succ_cons, List.take_zero]
      rw [List.drop_succ_cons, List.drop_drop]
      have h4 : i + (0 + 1) + t.length = i + (a :: t).length := by
        simp only [List.length_cons]; omega
      rw [h4]
      simp [List.append_assoc]

theorem run_service_phase (L : List GattService) (s : ProgState)
    (hex : s.exited = none)
    (hr : s.service_count + L.length ≤ SERVICES_CAPACITY) :
    run s (L.map Event.gatt_service_query_result) =
      .ok ({ s with services := store_list s.services s.service_count L,
                    service_count := s.service_count + L.length }, []) := by
  induction L generalizing s with
  | nil => simp [run, store_list]
  | cons a t ih =>
      have hlt : s.service_count < SERVICES_CAPACITY := by
        simp only [List.length_cons] at hr; omega
      rw [List.map_cons, run]
      rw [show step s (Event.gatt_service_query_result a) =
        .ok ({ s with services := s.services.set s.service_count a,
                      service_count := s.service_count + 1 }, []) by
        simp [step, hex, handle_gatt_client_event, hlt]]
      dsimp only
      rw [ih _ (by simp [hex]) (by simp only [List.length_cons] at hr; simp; omega)]
      dsimp only
      rw [store_list]
      have h1 : s.service_count + 1 + t.length = s.service_count + (a :: t).length := by
        simp only [List.length_cons]; omega
      rw [h1]
      rfl

theorem run_char_phase (k : Nat) (s : ProgState)
    (hex : s.exited = none) (hsearch : s.search_services = false)
    (hk : s.service_index + k = s.service_count)
    (hcap : s.service_count ≤ s.services.length) :
    run s (List.replicate (k + 1) Event.gatt_query_complete) =
      .ok ({ s with service_index := 0 },
        ((s.services.drop s.service_index).take k).map
          (Act.gatt_client_discover_characteristics_for_service s.connection_handler)
        ++ [Act.gap_disconnect s.connection_handler]) := by
  induction k generalizing s with
  | zero =>
      have hnl : ¬ s.service_index < s.service_count := by omega
      rw [List.replicate_succ, List.replicate_zero, run]
      rw [show step s Event.gatt_query_complete =
        .ok ({ s with service_index := 0 },
             [Act.gap_disconnect s.connection_handler]) by
        simp [step, hex, handle_gatt_client_event, hsearch, hnl]]
      dsimp only [run]
      simp
  | succ k ih =>
      have hlt : s.service_index < s.service_count := by omega
      have hidx : s.service_index < s.services.length := by omega
      rw [List.replicate_succ, run]
      rw [show step s Event.gatt_query_complete =
        .ok ({ s with service_index := s.service_index + 1 },
          [Act.gatt_client_discover_characteristics_for_service s.connection_handler
            (s.services.getD s.service_index zero_service)]) by
        simp [step, hex, handle_gatt_client_event, hsearch, hlt]]
      dsimp only
      rw [ih { s with service_index := s.service_index + 1 } hex hsearch
        (by dsimp only; omega) hcap]
      dsimp only
      rw [List.getD_eq_getElem s.services zero_service hidx]
      rw [show (s.services.drop s.service_index).take (k + 1) =
          s.services[s.service_index] :: (s.services.drop (s.service_index + 1)).take k by
        rw [List.drop_eq_getElem_cons hidx, List.take_succ_cons]]
      simp

theorem getD_zero_append_replicate (L : List GattService) (n : Nat) :
    (L ++ List.replicate n zero_service).getD 0 zero_service =
      L.getD 0 zero_service := by
  cases L with
  | nil =>
      cases n with
      | zero => rfl
      | succ m => simp [List.replicate_succ, List.getD_cons_zero]
  | cons a t => simp [List.getD_cons_zero]

theorem run_search_complete_phase (s : ProgState) (k : Nat)
    (hex : s.exited = none) (hsearch : s.search_services = true)
    (hk : s.service_count = k) (hcap : s.service_count ≤ s.services.length) :
    run s (List.replicate (k + 2) Event.gatt_query_complete) =
      .ok ({ s with service_index := 0, search_services := false },
        Act.gatt_client_discover_characteristics_for_service s.connection_handler
          (s.services.getD 0 zero_service) ::
        ((s.services.take k).map
          (Act.gatt_client_discover_characteristics_for_service s.connection_handler)
        ++ [Act.gap_disconnect s.connection_handler])) := by
  rw [show k + 2 = (k + 1) + 1 from rfl, List.replicate_succ, run]
  rw [show step s Event.gatt_query_complete =
    .ok ({ s with service_index := 0, search_services := false },
      [Act.gatt_client_discover_characteristics_for_service s.connection_handler
        (s.services.getD 0 zero_service)]) by
    simp [step, hex, handle_gatt_client_event, hsearch]]
  dsimp only
  rw [run_char_phase k { s with service_index := 0, search_services := false }
    hex rfl (by dsimp only; omega) (by dsimp only; omega)]
  dsimp only
  simp

theorem run_discovery_trace (h : Nat) (L : List GattService)
    (hlen : L.length ≤ SERVICES_CAPACITY) :
    run initState (discovery_trace h L) =
      .ok ({ initState with
               connection_handler := h,
               services := L ++ List.replicate (SERVICES_CAPACITY - L.length) zero_service,
               service_count := L.length,
               search_services := false },
        Act.gatt_client_discover_primary_services h ::
        Act.gatt_client_discover_characteristics_for_service h (L.getD 0 zero_service) ::
        (L.map (Act.gatt_client_discover_characteristics_for_service h) ++
         [Act.gap_disconnect h])) := by
  have hsvc : store_list (List.replicate SERVICES_CAPACITY zero_service) 0 L =
      L ++ List.replicate (SERVICES_CAPACITY - L.length) zero_service := by
    rw [store_list_eq L _ 0 (by simpa using hlen)]
    simp [List.drop_replicate]
  rw [discovery_trace, run]
  rw [show step initState (Event.hci_le_connection_complete h) =
    .ok ({ initState with connection_handler := h },
         [Act.gatt_client_discover_primary_services h]) from rfl]
  dsimp only
  rw [run_append]
  rw [run_service_phase L { initState with connection_handler := h } rfl
    (by show 0 + L.length ≤ SERVICES_CAPACITY; omega)]
  dsimp only
  simp only [initState]
  rw [hsvc]
  rw [run_search_complete_phase]
  · dsimp only
    rw [getD_zero_append_replicate]
    simp [List.take_left]
  case hex => rfl
  case hsearch => rfl
  case hk => simp
  case hcap => simp only [List.length_append, List.length_replicate]; omega

theorem char_targets_map (h : Nat) (L : List GattService) :
    char_targets (L.map (Act.gatt_client_discover_characteristics_for_service h)) =
      L := by
  induction L with
  | nil => rfl
  | cons a t ih =>
      simp only [List.map_cons, char_targets, List.filterMap_cons] at ih ⊢
      rw [ih]

theorem char_targets_of_trace (h : Nat) (x : GattService) (L : List GattService) :
    char_targets (Act.gatt_client_discover_primary_services h ::
      Act.gatt_client_discover_characteristics_for_service h x ::
      (L.map (Act.gatt_client_discover_characteristics_for_service h) ++
       [Act.gap_disconnect h])) = x :: L := by
  have hmap := char_targets_map h L
  simp only [char_targets, List.filterMap_cons, List.filterMap_append] at hmap ⊢
  simp [hmap]

/-! ### C1: number and order of characteristic-discovery requests -/

/-- C1 counterexample: for the single-service sequence `[svc_a]` (S = 1)
the program issues two discover-characteristics requests, not exactly
S = 1 — element 0 is queried twice. -/
theorem two_char_requests_for_single_service :
    run_actions initState (discovery_trace 7 [svc_a]) =
      some [Act.gatt_client_discover_primary_services 7,
            Act.gatt_client_discover_characteristics_for_service 7 svc_a,
            Act.gatt_client_discover_characteristics_for_service 7 svc_a,
            Act.gap_disconnect 7] ∧
    (char_targets
        [Act.gatt_client_discover_primary_services 7,
         Act.gatt_client_discover_characteristics_for_service 7 svc_a,
         Act.gatt_client_discover_characteristics_for_service 7 svc_a,
         Act.gap_disconnect 7]).length = 2 := by
  decide

/-- C1 (amended): for a discovered service sequence of length S with
1 ≤ S ≤ capacity, the orchestrator issues S+1 discover-characteristics
requests, not S: the services query-complete issues one for element 0
without advancing the index, the next query-complete reads element 0
again, and the remaining elements follow in order; each request is issued
in response to a query-complete event, and one disconnect follows the
last of them. -/
theorem char_requests_one_extra_then_in_order (h : Nat) (L : List GattService)
    (_hS : 1 ≤ L.length) (hlen : L.length ≤ SERVICES_CAPACITY) :
    run_actions initState (discovery_trace h L) =
      some (Act.gatt_client_discover_primary_services h ::
        Act.gatt_client_discover_characteristics_for_service h (L.getD 0 zero_service) ::
        (L.map (Act.gatt_client_discover_characteristics_for_service h) ++
         [Act.gap_disconnect h])) := by
  rw [run_actions, run_discovery_trace h L hlen]

/-- Witness for the amended C1 at handle 7 and the one-element sequence. -/
theorem char_requests_one_extra_then_in_order_witness :
    1 ≤ [svc_a].length ∧ [svc_a].length ≤ SERVICES_CAPACITY ∧
    run_actions initState (discovery_trace 7 [svc_a]) =
      some (Act.gatt_client_discover_primary_services 7 ::
        Act.gatt_client_discover_characteristics_for_service 7
          ([svc_a].getD 0 zero_service) ::
        ([svc_a].map (Act.gatt_client_discover_characteristics_for_service 7) ++
         [Act.gap_disconnect 7])) :=
  ⟨by decide, by decide,
   char_requests_one_extra_then_in_order 7 [svc_a] (by decide) (by decide)⟩

/-! ### C5: the first service is queried twice, S+1 requests in total -/

/-- C5: when S ≥ 1, the query-complete ending service discovery issues a
characteristic discovery for element 0 without advancing the index, and
the next query-complete reads element 0 again before incrementing, so the
first service receives two discover-characteristics requests and S+1 such
requests are issued in total. -/
theorem first_service_queried_twice (h : Nat) (L : List GattService)
    (_hS : 1 ≤ L.length) (hlen : L.length ≤ SERVICES_CAPACITY) :
    ∃ as, run_actions initState (discovery_trace h L) = some as ∧
      char_targets as = L.getD 0 zero_service :: L ∧
      (char_targets as).length = L.length + 1 := by
  refine ⟨_, by rw [run_actions, run_discovery_trace h L hlen], ?_, ?_⟩
  · exact char_targets_of_trace h (L.getD 0 zero_service) L
  · rw [char_targets_of_trace h (L.getD 0 zero_service) L]
    simp

/-- Witness for C5 at handle 7 and the one-element sequence. -/
theorem first_service_queried_twice_witness :
    1 ≤ [svc_a].length ∧ [svc_a].length ≤ SERVICES_CAPACITY ∧
    ∃ as, run_actions initState (discovery_trace 7 [svc_a]) = some as ∧
      char_targets as = [svc_a].getD 0 zero_service :: [svc_a] ∧
      (char_targets as).length = [svc_a].length + 1 :=
  ⟨by decide, by decide,
   first_service_queried_twice 7 [svc_a] (by decide) (by decide)⟩

/-! ### C6: the disconnect request -/

/-- C6 counterexample: with S = 0 the claim says a disconnect is issued
immediately after the services query-complete; in fact that event issues a
characteristic discovery (of the zero-initialised slot 0) and no
disconnect at all. -/
theorem no_disconnect_upon_services_complete_when_empty :
    run_actions initState
        [Event.hci_le_connection_complete 7, Event.gatt_query_complete] =
      some [Act.gatt_client_discover_primary_services 7,
            Act.gatt_client_discover_characteristics_for_service 7 zero_service] ∧
    count_disconnects
        [Act.gatt_client_discover_primary_services 7,
         Act.gatt_client_discover_characteristics_for_service 7 zero_service] = 0 := by
  decide

/-- C6 (amended): exactly one disconnect request is issued per session, as
the final action, referencing the connection handle captured at
connection-complete; it is issued upon the query-complete that follows the
final characteristic discovery — for S = 0 that is the second
query-complete (after one spurious characteristic discovery), not
immediately upon the services query-complete. -/
theorem one_disconnect_as_final_action (h : Nat) (L : List GattService)
    (hlen : L.length ≤ SERVICES_CAPACITY) :
    ∃ as, run_actions initState (discovery_trace h L) = some as ∧
      count_disconnects as = 1 ∧
      as.getLast? = some (Act.gap_disconnect h) := by
  refine ⟨_, by rw [run_actions, run_discovery_trace h L hlen], ?_, ?_⟩
  · simp [count_disconnects, List.countP_cons, List.countP_append,
      List.countP_map, Function.comp]
  · have hsplit : Act.gatt_client_discover_primary_services h ::
        Act.gatt_client_discover_characteristics_for_service h
          (L.getD 0 zero_service) ::
        (L.map (Act.gatt_client_discover_characteristics_for_service h) ++
         [Act.gap_disconnect h]) =
        (Act.gatt_client_discover_primary_services h ::
         Act.gatt_client_discover_characteristics_for_service h
           (L.getD 0 zero_service) ::
         L.map (Act.gatt_client_discover_characteristics_for_service h)) ++
        [Act.gap_disconnect h] := by
      simp
    rw [hsplit, List.getLast?_concat]

/-- Witness for the amended C6 at handle 7 and the empty sequence. -/
theorem one_disconnect_as_final_action_witness :
    ([] : List GattService).length ≤ SERVICES_CAPACITY ∧
    ∃ as, run_actions initState (discovery_trace 7 []) = some as ∧
      count_disconnects as = 1 ∧
      as.getLast? = some (Act.gap_disconnect 7) :=
  ⟨by decide, one_disconnect_as_final_action 7 [] (by decide)⟩

/-! ### C8: process termination -/

theorem step_disconnection (s : ProgState) (hex : s.exited = none) :
    step s Event.hci_disconnection_complete =
      .ok ({ s with exited := some 0 }, [Act.exit_process 0]) := by
  simp [step, hex, handle_hci_event]

theorem step_no_exit (s : ProgState) (e : Event) (s1 : ProgState) (as : List Act)
    (hex : s.exited = none) (hne : e ≠ Event.hci_disconnection_complete)
    (hstep : step s e = .ok (s1, as)) :
    s1.exited = none ∧ ∀ c, Act.exit_process c ∉ as := by
  cases e with
  | btstack_event_state working =>
      simp only [step, hex, Option.isSome_none, Bool.false_eq_true, if_false,
        handle_hci_event] at hstep
      split at hstep <;> [skip; split at hstep] <;>
        (injection hstep with h1; injection h1 with h1 h2; subst h1; subst h2;
         exact ⟨by first | rfl | exact hex, by simp⟩)
  | gap_event_advertising_report addr addr_type =>
      simp only [step, hex, Option.isSome_none, Bool.false_eq_true, if_false,
        handle_hci_event] at hstep
      injection hstep with h1; injection h1 with h1 h2; subst h1; subst h2
      exact ⟨by first | rfl | exact hex, by simp⟩
  | hci_le_connection_complete h =>
      simp only [step, hex, Option.isSome_none, Bool.false_eq_true, if_false,
        handle_hci_event] at hstep
      injection hstep with h1; injection h1 with h1 h2; subst h1; subst h2
      exact ⟨rfl, by simp⟩
  | hci_le_meta_other =>
      simp only [step, hex, Option.isSome_none, Bool.false_eq_true, if_false,
        handle_hci_event] at hstep
      injection hstep with h1; injection h1 with h1 h2; subst h1; subst h2
      exact ⟨by first | rfl | exact hex, by simp⟩
  | hci_disconnection_complete => exact absurd rfl hne
  | gatt_service_query_result svc =>
      simp only [step, hex, Option.isSome_none, Bool.false_eq_true, if_false,
        handle_gatt_client_event] at hstep
      split at hstep
      · injection hstep with h1; injection h1 with h1 h2; subst h1; subst h2
        exact ⟨rfl, by simp⟩
      · exact absurd hstep (by simp)
  | gatt_characteristic_query_result ch =>
      simp only [step, hex, Option.isSome_none, Bool.false_eq_true, if_false,
        handle_gatt_client_event] at hstep
      injection hstep with h1; injection h1 with h1 h2; subst h1; subst h2
      exact ⟨by first | rfl | exact hex, by simp⟩
  | gatt_query_complete =>
      simp only [step, hex, Option.isSome_none, Bool.false_eq_true, if_false,
        handle_gatt_client_event] at hstep
      split at hstep <;> [skip; split at hstep] <;>
        (injection hstep with h1; injection h1 with h1 h2; subst h1; subst h2;
         exact ⟨rfl, by simp⟩)
  | other_event =>
      simp only [step, hex, Option.isSome_none, Bool.false_eq_true, if_false,
        handle_hci_event] at hstep
      injection hstep with h1; injection h1 with h1 h2; subst h1; subst h2
      exact ⟨by first | rfl | exact hex, by simp⟩

theorem run_exit_count (evs : List Event) (s st : ProgState) (as : List Act)
    (hex : s.exited = none) (hrun : run s evs = .ok (st, as)) :
    count_exits as = (if Event.hci_disconnection_complete ∈ evs then 1 else 0) ∧
    ∀ c, Act.exit_process c ∈ as → c = 0 := by
  induction evs generalizing s as with
  | nil =>
      rw [run] at hrun
      injection hrun with h1
      injection h1 with h1 h2
      subst h1; subst h2
      exact ⟨by simp [count_exits], by simp⟩
  | cons e t ih =>
      rw [run] at hrun
      cases hs : step s e with
      | error err => rw [hs] at hrun; exact absurd hrun (by simp)
      | ok p =>
          obtain ⟨s1, as1⟩ := p
          rw [hs] at hrun
          dsimp only at hrun
          cases hr : run s1 t with
          | error err => rw [hr] at hrun; exact absurd hrun (by simp)
          | ok q =>
              obtain ⟨s2, as2⟩ := q
              rw [hr] at hrun
              dsimp only at hrun
              injection hrun with h1
              injection h1 with hst has
              subst hst; subst has
              by_cases hdisc : e = Event.hci_disconnection_complete
              · subst hdisc
                rw [step_disconnection s hex] at hs
                injection hs with h2
                injection h2 with h2 h3
                subst h2; subst h3
                rw [run_of_exited { s with exited := some 0 } t rfl] at hr
                injection hr with h4
                injection h4 with h4 h5
                subst h5
                constructor
                · simp [count_exits]
                · intro c hc
                  simp at hc
                  exact hc
              · obtain ⟨hex1, hnoexit⟩ := step_no_exit s e s1 as1 hex hdisc hs
                obtain ⟨hcount, hcodes⟩ := ih s1 as2 hex1 hr
                have h0 : count_exits as1 = 0 := by
                  rw [count_exits, List.countP_eq_zero]
                  intro a ha
                  cases a
                  case exit_process c => exact absurd ha (hnoexit c)
                  all_goals simp
                constructor
                · rw [count_exits, List.countP_append, ← count_exits, ← count_exits,
                    h0, hcount]
                  have hdisc2 : Event.hci_disconnection_complete ≠ e :=
                    fun hh => hdisc hh.symm
                  simp [List.mem_cons, hdisc2]
                · intro c hc
                  rcases List.mem_append.mp hc with h | h
                  · exact absurd h (hnoexit c)
                  · exact hcodes c h

/-- C8: over any sequence of delivered events (free of undefined
behaviour), `exit` is called exactly once when a disconnection-complete
event occurs and never otherwise, always with status 0: no event handled
before a disconnection-complete terminates the process. -/
theorem termination_only_on_disconnection (evs : List Event)
    (st : ProgState) (as : List Act)
    (hrun : run initState evs = .ok (st, as)) :
    count_exits as = (if Event.hci_disconnection_complete ∈ evs then 1 else 0) ∧
    ∀ c, Act.exit_process c ∈ as → c = 0 :=
  run_exit_count evs initState st as rfl hrun

/-- Witness for C8: a connection followed by a disconnection-complete
yields exactly one `exit(0)`. -/
theorem termination_only_on_disconnection_witness :
    count_exits [Act.gatt_client_discover_primary_services 7, Act.exit_process 0] =
      (if Event.hci_disconnection_complete ∈
          [Event.hci_le_connection_complete 7, Event.hci_disconnection_complete]
        then 1 else 0) ∧
    ∀ c, Act.exit_process c ∈
        [Act.gatt_client_discover_primary_services 7, Act.exit_process 0] →
      c = 0 :=
  termination_only_on_disconnection
    [Event.hci_le_connection_complete 7, Event.hci_disconnection_complete]
    { initState with connection_handler := 7, exited := some 0 }
    [Act.gatt_client_discover_primary_services 7, Act.exit_process 0] rfl

/-! ### C9: the index invariant -/

theorem step_preserves_index_le (s : ProgState) (e : Event) (s1 : ProgState)
    (as : List Act) (hinv : s.service_index ≤ s.service_count)
    (hstep : step s e = .ok (s1, as)) :
    s1.service_index ≤ s1.service_count := by
  cases hex : s.exited with
  | some c =>
      rw [step_of_exited s e (by simp [hex])] at hstep
      injection hstep with h1
      injection h1 with h1 h2
      subst h1
      exact hinv
  | none =>
      cases e with
      | btstack_event_state working =>
          simp only [step, hex, Option.isSome_none, Bool.false_eq_true, if_false,
            handle_hci_event] at hstep
          split at hstep <;> [skip; split at hstep] <;>
            (injection hstep with h1; injection h1 with h1 h2; subst h1; omega)
      | gap_event_advertising_report addr addr_type =>
          simp only [step, hex, Option.isSome_none, Bool.false_eq_true, if_false,
            handle_hci_event] at hstep
          injection hstep with h1; injection h1 with h1 h2; subst h1
          omega
      | hci_le_connection_complete h =>
          simp only [step, hex, Option.isSome_none, Bool.false_eq_true, if_false,
            handle_hci_event] at hstep
          injection hstep with h1; injection h1 with h1 h2; subst h1
          (try dsimp only); omega
      | hci_le_meta_other =>
          simp only [step, hex, Option.isSome_none, Bool.false_eq_true, if_false,
            handle_hci_event] at hstep
          injection hstep with h1; injection h1 with h1 h2; subst h1
          omega
      | hci_disconnection_complete =>
          simp only [step, hex, Option.isSome_none, Bool.false_eq_true, if_false,
            handle_hci_event] at hstep
          injection hstep with h1; injection h1 with h1 h2; subst h1
          (try dsimp only); omega
      | gatt_service_query_result svc =>
          simp only [step, hex, Option.isSome_none, Bool.false_eq_true, if_false,
            handle_gatt_client_event] at hstep
          split at hstep
          · injection hstep with h1; injection h1 with h1 h2; subst h1
            (try dsimp only); omega
          · exact absurd hstep (by simp)
      | gatt_characteristic_query_result ch =>
          simp only [step, hex, Option.isSome_none, Bool.false_eq_true, if_false,
            handle_gatt_client_event] at hstep
          injection hstep with h1; injection h1 with h1 h2; subst h1
          omega
      | gatt_query_complete =>
          simp only [step, hex, Option.isSome_none, Bool.false_eq_true, if_false,
            handle_gatt_client_event] at hstep
          split at hstep <;> [skip; split at hstep] <;>
            (injection hstep with h1; injection h1 with h1 h2; subst h1;
             (try dsimp only); omega)
      | other_event =>
          simp only [step, hex, Option.isSome_none, Bool.false_eq_true, if_false,
            handle_hci_event] at hstep
          injection hstep with h1; injection h1 with h1 h2; subst h1
          omega

theorem run_preserves_index_le (evs : List Event) (s st : ProgState)
    (as : List Act) (hinv : s.service_index ≤ s.service_count)
    (hrun : run s evs = .ok (st, as)) :
    st.service_index ≤ st.service_count := by
  induction evs generalizing s as with
  | nil =>
      rw [run] at hrun
      injection hrun with h1
      injection h1 with h1 h2
      subst h1
      exact hinv
  | cons e t ih =>
      rw [run] at hrun
      cases hs : step s e with
      | error err => rw [hs] at hrun; exact absurd hrun (by simp)
      | ok p =>
          obtain ⟨s1, as1⟩ := p
          rw [hs] at hrun
          dsimp only at hrun
          cases hr : run s1 t with
          | error err => rw [hr] at hrun; exact absurd hrun (by simp)
          | ok q =>
              obtain ⟨s2, as2⟩ := q
              rw [hr] at hrun
              dsimp only at hrun
              injection hrun with h1
              injection h1 with hst has
              subst hst
              exact ih s1 as2 (step_preserves_index_le s e s1 as1 hinv hs) hr

/-- C9: the session invariant 0 ≤ service_index ≤ service_count holds in
every reachable state: the index starts at 0, is incremented only when
strictly below the stored-service count, and is reset to 0 before the
disconnect, so every handler step preserves the bound. -/
theorem service_index_le_service_count (evs : List Event)
    (st : ProgState) (as : List Act)
    (hrun : run initState evs = .ok (st, as)) :
    st.service_index ≤ st.service_count :=
  run_preserves_index_le evs initState st as (by decide) hrun

/-- Witness for C9 after a connection, one service result and two
query-complete events. -/
theorem service_index_le_service_count_witness :
    ({ cmdline_addr := List.replicate 6 0, cmdline_addr_found := false,
       connection_handler := 7,
       services := svc_a :: List.replicate 39 zero_service,
       service_count := 1, service_index := 1, search_services := false,
       exited := none } : ProgState).service_index ≤
    ({ cmdline_addr := List.replicate 6 0, cmdline_addr_found := false,
       connection_handler := 7,
       services := svc_a :: List.replicate 39 zero_service,
       service_count := 1, service_index := 1, search_services := false,
       exited := none } : ProgState).service_count :=
  service_index_le_service_count
    [Event.hci_le_connection_complete 7, Event.gatt_service_query_result svc_a,
     Event.gatt_query_complete, Event.gatt_query_complete] _
    [Act.gatt_client_discover_primary_services 7,
     Act.gatt_client_discover_characteristics_for_service 7 svc_a,
     Act.gatt_client_discover_characteristics_for_service 7 svc_a] rfl

/-! ### C10: command-line argument handling -/

/-- C10 counterexample: an `-a` flag whose address value does not parse is
not treated as a usage error — `sscanf_bd_addr` returns 0, the loop simply
continues, and the program powers on in scanning mode instead of printing
usage and exiting. -/
theorem bad_address_value_powers_on :
    btstack_main ["gatt_browser", "-a", "zz:zz:zz:zz:zz:zz"] =
      MainOutcome.powered_on false (List.replicate 6 0) ∧
    btstack_main ["gatt_browser", "-a", "zz:zz:zz:zz:zz:zz"] ≠
      MainOutcome.usage_and_exit0 := by
  decide

/-- C10 (amended): only an argument other than `-a`/`--address` prints the
usage message and exits with status 0 before powering on.  An `-a` whose
value does not parse is accepted silently — `cmdline_addr_found` stays 0
and the program powers on in scanning mode — and an `-a` that is the final
argument makes the program read `argv[argc]`, the NULL terminator of the
argument vector, instead of reporting a usage error. -/
theorem usage_only_on_unknown_argument (prog a v : String) (rest : List String)
    (ha : a ≠ "-a") (ha2 : a ≠ "--address") (hv : sscanf_bd_addr v = none) :
    btstack_main (prog :: a :: rest) = MainOutcome.usage_and_exit0 ∧
    btstack_main [prog, "-a", v] =
      MainOutcome.powered_on false (List.replicate 6 0) ∧
    btstack_main [prog, "-a"] = MainOutcome.read_null_argv := by
  refine ⟨?_, ?_, rfl⟩
  · show btstack_main_loop (a :: rest) false (List.replicate 6 0) =
      MainOutcome.usage_and_exit0
    rw [btstack_main_loop.eq_def]
    dsimp only
    rw [if_neg (by simp [ha, ha2])]
  · simp [btstack_main, btstack_main_loop, hv]

/-- Witness for the amended C10 at a concrete argument vector. -/
theorem usage_only_on_unknown_argument_witness :
    ("-x" ≠ "-a") ∧ ("-x" ≠ "--address") ∧ sscanf_bd_addr "nope" = none ∧
    (btstack_main ["gatt_browser", "-x"] = MainOutcome.usage_and_exit0 ∧
     btstack_main ["gatt_browser", "-a", "nope"] =
       MainOutcome.powered_on false (List.replicate 6 0) ∧
     btstack_main ["gatt_browser", "-a"] = MainOutcome.read_null_argv) :=
  ⟨by decide, by decide, by decide,
   usage_only_on_unknown_argument "gatt_browser" "-x" "nope" []
     (by decide) (by decide) (by decide)⟩
